import Mathlib

/-!
Shallow embedding of the NVIDIA Audio2Face-3D bridge service
(src/bridge-service/main.py) and verification of its specification.

Modelling conventions:
* Python strings are modelled as lists of characters (`PyStr`); Python
  byte strings as lists of naturals.
* Environment-sourced globals (NVIDIA_API_KEY, A2F_FUNCTION_ID,
  A2F_OUTPUT_FPS, A2F_BRIDGE_TOKEN) are gathered into a `Config` record
  passed explicitly to each handler; `os.getenv` yields `Option PyStr`
  (`none` when the variable is unset).
* Python truthiness of an optional string (`if not X`) is `truthy`.
* Numeric blendshape weights and timestamps are modelled as rationals;
  the `float(value)` coercion of the source is the identity on this model.
* `base64.b64decode` (standard library) and the gRPC stub call
  `stub.ProcessAudio` (network) are the two external effects of the
  handler; they are passed in as oracle functions.  A raised exception is
  an `Except.error` carrying the data the handler observes (`str(e)` for
  the decoder, `e.details()` for the RPC error).
* `raise HTTPException(...)` is an `Except.error` of an `HTTPException`
  value.  The try/except structure of `process_audio` is modelled
  faithfully: exceptions raised inside the try block (including the
  HTTPExceptions raised by `verify_token` and the API-key check) are
  caught by the two except clauses at the end of the handler.
-/

set_option linter.unusedVariables false

namespace A2FBridge

/-- Python strings, as lists of characters. -/
abbrev PyStr := List Char

/-- Python byte strings, as lists of naturals. -/
abbrev PyBytes := List Nat

/-- Truthiness of an optional Python string: `None` and the empty string
are falsy, every other string is truthy. -/
def truthy : Option PyStr → Bool
  | none => false
  | some s => !s.isEmpty

/-- Rendering of an optional string inside an f-string: Python renders
`None` as the text None. -/
def pyStrOfOpt : Option PyStr → PyStr
  | none => "None".data
  | some s => s

/-- Python `s.startswith(pre)`. -/
def pyStartswith (s pre : PyStr) : Bool :=
  pre.isPrefixOf s

/-- Worker for `pyReplace`.  The counter records how many characters of a
just-matched occurrence of the pattern still have to be skipped before
matching is attempted again, so the scan is left-to-right and
non-overlapping, exactly as Python `str.replace`. -/
def pyReplaceAux (pat rep : PyStr) : Nat → PyStr → PyStr
  | _ + 1, [] => []
  | skip + 1, _ :: rest => pyReplaceAux pat rep skip rest
  | 0, [] => []
  | 0, c :: rest =>
    if pat.isEmpty = false ∧ pat.isPrefixOf (c :: rest) = true then
      rep ++ pyReplaceAux pat rep (pat.length - 1) rest
    else
      c :: pyReplaceAux pat rep 0 rest

/-- Python `s.replace(pat, rep)`: every non-overlapping occurrence of
`pat` in `s`, found scanning left to right, is replaced by `rep`.  (The
source only ever calls this with the fixed non-empty pattern Bearer
followed by a space, so the special Python behaviour on an empty pattern
is irrelevant and the empty pattern is treated as matching nowhere.) -/
def pyReplace (s pat rep : PyStr) : PyStr :=
  pyReplaceAux pat rep 0 s

/-- Python `pat in s` (substring containment). -/
def pyContains : PyStr → PyStr → Bool
  | [], pat => pat.isEmpty
  | c :: rest, pat => pat.isPrefixOf (c :: rest) || pyContains rest pat

/-- Process-wide configuration, read from the environment at startup. -/
structure Config where
  NVIDIA_API_KEY : Option PyStr
  A2F_FUNCTION_ID : PyStr
  A2F_OUTPUT_FPS : Nat
  BRIDGE_TOKEN : Option PyStr
deriving DecidableEq

/-- fastapi.HTTPException, carrying a status code and a detail string. -/
structure HTTPException where
  status_code : Nat
  detail : PyStr
deriving DecidableEq

/-- Starlette renders `str(HTTPException(c, d))` as the status code,
a colon and a space, then the detail. -/
def pyStrOfHTTPException (e : HTTPException) : PyStr :=
  (toString e.status_code).data ++ ": ".data ++ e.detail

/-- Request body of POST /a2f/process. -/
structure AudioRequest where
  audio : PyStr
  format : PyStr := "webm".data
  function_id : Option PyStr := none
deriving DecidableEq

/-- One output animation frame: a timestamp in seconds and an
insertion-ordered mapping from coefficient name to weight. -/
structure BlendshapeFrame where
  timestamp : ℚ
  blendshapes : List (PyStr × ℚ)
deriving DecidableEq

/-- Response body of POST /a2f/process. -/
structure AudioResponse where
  success : Bool
  frames : Option (List BlendshapeFrame) := none
  fps : Option Nat := none
  duration : Option ℚ := none
  error : Option PyStr := none
deriving DecidableEq

/-- `verify_token` from the source: no check when no bridge token is
configured; 401 for a missing header; 401 for a header that does not
start with Bearer and a space; then the header with every occurrence of
that prefix text deleted (str.replace replaces all occurrences) is
compared with the configured token, 403 on mismatch. -/
def verify_token (cfg : Config) (authorization : Option PyStr) :
    Except HTTPException Unit :=
  if truthy cfg.BRIDGE_TOKEN = false then
    .ok ()
  else if truthy authorization = false then
    .error ⟨401, "Missing authorization header".data⟩
  else
    let auth := authorization.getD []
    if pyStartswith auth "Bearer ".data = false then
      .error ⟨401, "Invalid authorization format".data⟩
    else
      let token := pyReplace auth "Bearer ".data []
      if token ≠ cfg.BRIDGE_TOKEN.getD [] then
        .error ⟨403, "Invalid token".data⟩
      else
        .ok ()

/-- `convert_to_pcm16` from the source: a stub that returns the audio
bytes unchanged. -/
def convert_to_pcm16 (audio_data : PyBytes) (input_format : PyStr) : PyBytes :=
  audio_data

/-- `create_grpc_metadata` from the source: the authorization pair uses
the configured NVIDIA key, and the function-id pair uses the
process-default function id read from the environment. -/
def create_grpc_metadata (cfg : Config) : List (PyStr × PyStr) :=
  [("authorization".data, "Bearer ".data ++ pyStrOfOpt cfg.NVIDIA_API_KEY),
   ("function-id".data, cfg.A2F_FUNCTION_ID)]

/-- One per-frame record of the upstream gRPC response: a flat ordered
sequence of numeric values. -/
structure FrameData where
  values : List ℚ
deriving DecidableEq

/-- The upstream gRPC response observed by the handler. -/
structure A2FResponse where
  blendshapes : List FrameData
deriving DecidableEq

/-- The upstream gRPC request built by the handler. -/
structure A2FRequest where
  audio_data : PyBytes
  output_fps : Nat
deriving DecidableEq

/-- A gRPC error as observed by the handler (code and details). -/
structure RpcError where
  code : PyStr
  details : PyStr
deriving DecidableEq

/-- `parse_a2f_response` from the source: frame `i` of the upstream
response becomes a `BlendshapeFrame` with timestamp `i / A2F_OUTPUT_FPS`
whose mapping binds, for value `j` of the record, the synthesized name
blendshape_j to `float` of that value. -/
def parse_a2f_response (cfg : Config) (response : A2FResponse) :
    List BlendshapeFrame :=
  response.blendshapes.enum.map fun p =>
    { timestamp := (p.1 : ℚ) / (cfg.A2F_OUTPUT_FPS : ℚ)
      blendshapes := p.2.values.enum.map fun q =>
        (("blendshape_" ++ toString q.1).data, q.2) }

/-- Python `x or d` on an optional string: the default when `x` is
`None` or empty. -/
def pyOrStr : Option PyStr → PyStr → PyStr
  | none, d => d
  | some s, d => if s.isEmpty then d else s

/-- The exceptions that can be raised inside the try block of
`process_audio`: a raised HTTPException, a gRPC error, or any other
exception carrying its `str(e)` message (for this handler, the base64
decoding error). -/
inductive PyExc where
  | http (e : HTTPException)
  | rpc (e : RpcError)
  | other (msg : PyStr)
deriving DecidableEq

/-- The two except clauses of `process_audio`.  A gRPC error is
re-raised as a 500 whose detail prepends an error prefix to the upstream
detail.  Every other exception, HTTPException included (HTTPException is
a subclass of Exception, so the 401/403/500 raised inside the try block
land here), is re-raised as a 500 whose detail is `str(e)`. -/
def handle_request_exceptions : PyExc → HTTPException
  | .rpc e => ⟨500, "NVIDIA A2F-3D Error: ".data ++ e.details⟩
  | .http e => ⟨500, pyStrOfHTTPException e⟩
  | .other msg => ⟨500, msg⟩

/-- Observable outcome of one POST /a2f/process request: the HTTP-level
result, the list of upstream gRPC invocations actually performed (with
the request and metadata sent), and the function id written to the log
line, when reached. -/
structure ProcessOutcome where
  result : Except HTTPException AudioResponse
  upstream_calls : List (A2FRequest × List (PyStr × PyStr))
  logged_function_id : Option PyStr

/-- `process_audio` from the source.  Steps, in order: token check;
API-key presence check; base64 decode of the audio field; the no-op
PCM16 conversion; resolution of `function_id` (request override or
process default) which the source then only logs; metadata construction
via `create_grpc_metadata`; construction of the gRPC request from the
decoded bytes and the configured output fps; the single upstream call;
response translation and duration computation.  All exceptions funnel
through `handle_request_exceptions`. -/
def process_audio (cfg : Config)
    (b64decode : PyStr → Except PyStr PyBytes)
    (stub_ProcessAudio : A2FRequest → List (PyStr × PyStr) →
      Except RpcError A2FResponse)
    (request : AudioRequest) (authorization : Option PyStr) :
    ProcessOutcome :=
  match verify_token cfg authorization with
  | .error e => ⟨.error (handle_request_exceptions (.http e)), [], none⟩
  | .ok _ =>
    if truthy cfg.NVIDIA_API_KEY = false then
      ⟨.error (handle_request_exceptions
        (.http ⟨500, "NVIDIA_API_KEY not configured".data⟩)), [], none⟩
    else
      match b64decode request.audio with
      | .error msg =>
        ⟨.error (handle_request_exceptions (.other msg)), [], none⟩
      | .ok audio_bytes =>
        let pcm_audio := convert_to_pcm16 audio_bytes request.format
        let function_id := pyOrStr request.function_id cfg.A2F_FUNCTION_ID
        let metadata := create_grpc_metadata cfg
        let a2f_request : A2FRequest := ⟨pcm_audio, cfg.A2F_OUTPUT_FPS⟩
        match stub_ProcessAudio a2f_request metadata with
        | .error e =>
          ⟨.error (handle_request_exceptions (.rpc e)),
           [(a2f_request, metadata)], some function_id⟩
        | .ok response =>
          let frames := parse_a2f_response cfg response
          let duration : ℚ :=
            if frames.isEmpty = false then
              (frames.length : ℚ) / (cfg.A2F_OUTPUT_FPS : ℚ)
            else 0
          ⟨.ok { success := true
                 frames := some frames
                 fps := some cfg.A2F_OUTPUT_FPS
                 duration := some duration },
           [(a2f_request, metadata)], some function_id⟩

/-- Response body of GET /health. -/
structure HealthResponse where
  status : PyStr
  nvidia_api_configured : Bool
  function_id : PyStr
  output_fps : Nat
deriving DecidableEq

/-- `health_check` from the source: a pure function of the configuration
with no authorization parameter and no upstream interaction; it reports
only the boolean presence of the NVIDIA key. -/
def health_check (cfg : Config) : HealthResponse :=
  { status := "healthy".data
    nvidia_api_configured := truthy cfg.NVIDIA_API_KEY
    function_id := cfg.A2F_FUNCTION_ID
    output_fps := cfg.A2F_OUTPUT_FPS }

/-- Modelled from the spec: the mapping-shaped branch of the response
translator, which belongs to the REST variant of the bridge, a file
of this repository not present under src/.  The spec states: if the raw
record is a mapping, coefficient names are copied as-is with values
coerced to floating point, and timestamps are index over output fps.
The coercion to float is the identity on this rational-valued model. -/
def parse_mapping_frames (output_fps : Nat)
    (raw : List (List (PyStr × ℚ))) : List BlendshapeFrame :=
  raw.enum.map fun p =>
    { timestamp := (p.1 : ℚ) / (output_fps : ℚ)
      blendshapes := p.2.map fun kv => (kv.1, kv.2) }

/-! ### Helper lemmas about the Python string model -/

/-- A list is a Boolean prefix of itself followed by anything. -/
theorem isPrefixOf_self_append (l u : PyStr) : l.isPrefixOf (l ++ u) = true := by
  induction l with
  | nil => simp [List.isPrefixOf]
  | cons c cs ih => simp [List.isPrefixOf, ih]

/-- Skipping exactly the length of a leading block resumes the scan right
after the block. -/
theorem pyReplaceAux_skip (pat rep : PyStr) (l s : PyStr) :
    pyReplaceAux pat rep l.length (l ++ s) = pyReplaceAux pat rep 0 s := by
  induction l with
  | nil => rfl
  | cons c cs ih =>
    simpa [pyReplaceAux] using ih

/-- Replacing in a string that starts with the (non-empty) pattern emits
the replacement and continues right after the matched occurrence. -/
theorem pyReplace_cons_append (p : Char) (ps u rep : PyStr) :
    pyReplace ((p :: ps) ++ u) (p :: ps) rep = rep ++ pyReplace u (p :: ps) rep := by
  show pyReplaceAux (p :: ps) rep 0 (p :: (ps ++ u)) = rep ++ pyReplaceAux (p :: ps) rep 0 u
  rw [pyReplaceAux]
  have hpre : (p :: ps).isPrefixOf (p :: ps ++ u) = true := isPrefixOf_self_append (p :: ps) u
  simp only [List.isEmpty_cons, hpre, and_self, if_pos, List.length_cons, Nat.add_sub_cancel]
  rw [pyReplaceAux_skip (p :: ps) rep ps u]
  simp [hpre]

/-- A string containing no occurrence of the pattern is left unchanged. -/
theorem pyReplace_of_not_contains (s pat rep : PyStr)
    (h : pyContains s pat = false) : pyReplace s pat rep = s := by
  induction s with
  | nil => rfl
  | cons c cs ih =>
    rw [pyContains, Bool.or_eq_false_iff] at h
    show pyReplaceAux pat rep 0 (c :: cs) = c :: cs
    rw [pyReplaceAux]
    simp only [h.1, and_false, if_neg, Bool.false_eq_true, not_false_eq_true]
    exact congrArg (c :: ·) (ih h.2)

/-- Replacing a pattern by the empty string never lengthens a string. -/
theorem pyReplaceAux_nil_length_le (pat : PyStr) (skip : Nat) (s : PyStr) :
    (pyReplaceAux pat [] skip s).length ≤ s.length := by
  induction s generalizing skip with
  | nil => cases skip <;> simp [pyReplaceAux]
  | cons c cs ih =>
    cases skip with
    | succ k =>
      rw [pyReplaceAux]
      exact Nat.le_succ_of_le (ih k)
    | zero =>
      rw [pyReplaceAux]
      split
      · simpa using Nat.le_succ_of_le (ih (pat.length - 1))
      · simpa using ih 0

/-- Deleting every occurrence of a non-empty pattern from a string that
contains it strictly shortens the string. -/
theorem pyReplace_nil_length_lt (p : Char) (ps s : PyStr)
    (h : pyContains s (p :: ps) = true) :
    (pyReplace s (p :: ps) []).length < s.length := by
  induction s with
  | nil => simp [pyContains, List.isEmpty] at h
  | cons c cs ih =>
    rw [pyContains] at h
    show (pyReplaceAux (p :: ps) [] 0 (c :: cs)).length < (c :: cs).length
    rw [pyReplaceAux]
    split
    · have := pyReplaceAux_nil_length_le (p :: ps) ((p :: ps).length - 1) cs
      simpa using Nat.lt_succ_of_le this
    · next hcond =>
      have hnp : (p :: ps).isPrefixOf (c :: cs) = false := by
        cases hb : (p :: ps).isPrefixOf (c :: cs) with
        | false => rfl
        | true => exact absurd ⟨by simp [List.isEmpty], hb⟩ hcond
      have hcs : pyContains cs (p :: ps) = true := by
        cases hb : pyContains cs (p :: ps) with
        | false =>
          rw [hnp, hb] at h
          simp at h
        | true => rfl
      simpa using Nat.succ_lt_succ (ih hcs)

/-! ### Claim theorems -/

/-- C1 (code bug): with a bridge token configured, every authentication
rejection of POST /a2f/process surfaces with status 500 instead of the
claimed 401/403, because the HTTPExceptions raised by `verify_token`
inside the try block are caught by the blanket except clause of
`process_audio` and re-raised as 500 with detail `str(e)`.  Evaluated
here on all three rejection shapes (missing header, header without the
Bearer prefix, wrong token); no upstream call is made in any of them. -/
theorem process_audio_auth_rejection_surfaces_as_500 :
    ((process_audio (Config.mk (some "k".data) "fid".data 60 (some "secret".data))
        (fun _ => .ok []) (fun _ _ => .ok ⟨[]⟩) { audio := "".data } none).result
      = .error ⟨500, "401: Missing authorization header".data⟩ ∧
     (process_audio (Config.mk (some "k".data) "fid".data 60 (some "secret".data))
        (fun _ => .ok []) (fun _ _ => .ok ⟨[]⟩) { audio := "".data } none).upstream_calls
      = []) ∧
    ((process_audio (Config.mk (some "k".data) "fid".data 60 (some "secret".data))
        (fun _ => .ok []) (fun _ _ => .ok ⟨[]⟩) { audio := "".data }
        (some "Token secret".data)).result
      = .error ⟨500, "401: Invalid authorization format".data⟩ ∧
     (process_audio (Config.mk (some "k".data) "fid".data 60 (some "secret".data))
        (fun _ => .ok []) (fun _ _ => .ok ⟨[]⟩) { audio := "".data }
        (some "Token secret".data)).upstream_calls
      = []) ∧
    ((process_audio (Config.mk (some "k".data) "fid".data 60 (some "secret".data))
        (fun _ => .ok []) (fun _ _ => .ok ⟨[]⟩) { audio := "".data }
        (some "Bearer wrong".data)).result
      = .error ⟨500, "403: Invalid token".data⟩ ∧
     (process_audio (Config.mk (some "k".data) "fid".data 60 (some "secret".data))
        (fun _ => .ok []) (fun _ _ => .ok ⟨[]⟩) { audio := "".data }
        (some "Bearer wrong".data)).upstream_calls
      = []) :=
  ⟨⟨rfl, rfl⟩, ⟨rfl, rfl⟩, ⟨rfl, rfl⟩⟩

/-- C2 (code bug): a request carrying a function_id override produces an
upstream call whose metadata still carries the process-default function
id; the resolved override is only written to the log line, because
`create_grpc_metadata` reads the global default and ignores the local
`function_id` variable of the handler. -/
theorem process_audio_override_not_sent_upstream :
    (process_audio (Config.mk (some "key".data) "default-fid".data 60 none)
        (fun _ => .ok []) (fun _ _ => .ok ⟨[]⟩)
        { audio := "".data, format := "webm".data,
          function_id := some "override-fid".data } none).upstream_calls
      = [(⟨[], 60⟩,
          [("authorization".data, "Bearer key".data),
           ("function-id".data, "default-fid".data)])] ∧
    (process_audio (Config.mk (some "key".data) "default-fid".data 60 none)
        (fun _ => .ok []) (fun _ _ => .ok ⟨[]⟩)
        { audio := "".data, format := "webm".data,
          function_id := some "override-fid".data } none).logged_function_id
      = some "override-fid".data :=
  ⟨rfl, rfl⟩

/-- C7: when no bridge token is configured, the token check never
rejects a request, whatever the Authorization header holds. -/
theorem verify_token_no_token_never_rejects (cfg : Config)
    (h : truthy cfg.BRIDGE_TOKEN = false) (authorization : Option PyStr) :
    verify_token cfg authorization = .ok () := by
  simp [verify_token, h]

/-- C7 witness: a concrete tokenless configuration accepts a garbage
header. -/
theorem verify_token_no_token_never_rejects_witness :
    truthy (Config.mk none "fid".data 60 none).BRIDGE_TOKEN = false ∧
    verify_token (Config.mk none "fid".data 60 none)
      (some "garbage".data) = .ok () :=
  ⟨rfl, verify_token_no_token_never_rejects (Config.mk none "fid".data 60 none)
    rfl (some "garbage".data)⟩

/-- C8: GET /health returns exactly the healthy-status record built from
the configuration, and it depends on the upstream credential only
through its presence: two configurations agreeing on credential
presence, function id and fps give identical responses, so the secret
value itself cannot appear in the response. -/
theorem health_check_shape_and_noninterference (c1 c2 : Config)
    (hk : truthy c1.NVIDIA_API_KEY = truthy c2.NVIDIA_API_KEY)
    (hf : c1.A2F_FUNCTION_ID = c2.A2F_FUNCTION_ID)
    (hp : c1.A2F_OUTPUT_FPS = c2.A2F_OUTPUT_FPS) :
    health_check c1 =
      { status := "healthy".data
        nvidia_api_configured := truthy c1.NVIDIA_API_KEY
        function_id := c1.A2F_FUNCTION_ID
        output_fps := c1.A2F_OUTPUT_FPS } ∧
    health_check c1 = health_check c2 := by
  refine ⟨rfl, ?_⟩
  simp [health_check, hk, hf, hp]

/-- C8 witness: two configurations with different secret key values,
both set, produce identical health responses. -/
theorem health_check_shape_and_noninterference_witness :
    health_check (Config.mk (some "secret-A".data) "fid".data 60 none) =
      { status := "healthy".data
        nvidia_api_configured := true
        function_id := "fid".data
        output_fps := 60 } ∧
    health_check (Config.mk (some "secret-A".data) "fid".data 60 none)
      = health_check (Config.mk (some "secret-B".data) "fid".data 60 none) :=
  (health_check_shape_and_noninterference
    (Config.mk (some "secret-A".data) "fid".data 60 none)
    (Config.mk (some "secret-B".data) "fid".data 60 none) rfl rfl rfl)

/-- C9 (counterexample): the configured token consisting of the word
Bearer and a space contains that very text, yet the header Bearer
BeaBearer rer (with a trailing space) is accepted: the left-to-right
scan of str.replace deletes the two occurrences it finds and the
deletion glues a fresh occurrence together, which equals the token.
This refutes the final clause of the claim, that no header is ever
accepted when the configured token contains the Bearer prefix text. -/
theorem verify_token_bearer_containing_token_accepted :
    pyContains "Bearer ".data "Bearer ".data = true ∧
    verify_token (Config.mk none "fid".data 60 (some "Bearer ".data))
      (some "Bearer BeaBearer rer ".data) = .ok () :=
  ⟨rfl, rfl⟩

/-- The Bearer prefix text as a cons cell, for rewriting with the
replace lemmas. -/
theorem bearer_cons : "Bearer ".data = 'B' :: "earer ".data := rfl

/-- C9 (amended): with a bridge token t configured, verify_token accepts
a non-empty header exactly when the header starts with the Bearer prefix
text and deleting every occurrence of that text from the header yields
t; for every t not containing that text, the header Bearer Bearer t
differs from the literal Bearer t yet is accepted; and for every t
containing that text, the literal header Bearer t is never accepted
(though, unlike the original claim, some other header may be). -/
theorem verify_token_replace_characterization (cfg : Config) (t : PyStr)
    (hc : cfg.BRIDGE_TOKEN = some t) (ht : t ≠ []) :
    (∀ a : PyStr, a ≠ [] →
      (verify_token cfg (some a) = .ok () ↔
        pyStartswith a "Bearer ".data = true ∧ pyReplace a "Bearer ".data [] = t)) ∧
    (pyContains t "Bearer ".data = false →
      "Bearer Bearer ".data ++ t ≠ "Bearer ".data ++ t ∧
      verify_token cfg (some ("Bearer Bearer ".data ++ t)) = .ok ()) ∧
    (pyContains t "Bearer ".data = true →
      verify_token cfg (some ("Bearer ".data ++ t)) ≠ .ok ()) := by
  have htruthy : truthy cfg.BRIDGE_TOKEN = true := by
    rw [hc]
    simpa [truthy] using ht
  have hchar : ∀ a : PyStr, a ≠ [] →
      (verify_token cfg (some a) = .ok () ↔
        pyStartswith a "Bearer ".data = true ∧ pyReplace a "Bearer ".data [] = t) := by
    intro a ha
    have hta : truthy (some a) = true := by simpa [truthy] using ha
    rw [verify_token, htruthy, hta]
    simp only [Bool.true_eq_false, if_false, Option.getD_some, hc]
    split_ifs with h1 h2 <;> simp_all
  have hrepl2 : ∀ u : PyStr, pyReplace ("Bearer Bearer ".data ++ u) "Bearer ".data []
      = pyReplace u "Bearer ".data [] := by
    intro u
    have hsplit : "Bearer Bearer ".data ++ u = "Bearer ".data ++ ("Bearer ".data ++ u) := rfl
    rw [hsplit, bearer_cons]
    rw [pyReplace_cons_append 'B' "earer ".data ("Bearer ".data ++ u) []]
    rw [show ("Bearer ".data : PyStr) = 'B' :: "earer ".data from rfl]
    rw [pyReplace_cons_append 'B' "earer ".data u []]
    rfl
  refine ⟨hchar, ?_, ?_⟩
  · intro hnc
    constructor
    · intro heq
      have := congrArg List.length heq
      simp at this
      omega
    · rw [hchar ("Bearer Bearer ".data ++ t) (by simp)]
      constructor
      · show ("Bearer ".data : PyStr).isPrefixOf ("Bearer Bearer ".data ++ t) = true
        have : "Bearer Bearer ".data ++ t = "Bearer ".data ++ ("Bearer ".data ++ t) := rfl
        rw [this]
        exact isPrefixOf_self_append _ _
      · rw [hrepl2 t]
        exact pyReplace_of_not_contains t "Bearer ".data [] hnc
  · intro hcc hok
    rw [hchar ("Bearer ".data ++ t) (by simp)] at hok
    have hrepl : pyReplace ("Bearer ".data ++ t) "Bearer ".data []
        = pyReplace t "Bearer ".data [] := by
      rw [bearer_cons]
      rw [pyReplace_cons_append 'B' "earer ".data t []]
      rfl
    have hlt : (pyReplace t "Bearer ".data []).length < t.length := by
      have := pyReplace_nil_length_lt 'B' "earer ".data t (by rw [← bearer_cons]; exact hcc)
      simpa [← bearer_cons] using this
    rw [hrepl] at hok
    rw [hok.2] at hlt
    exact absurd hlt (lt_irrefl _)

/-- C9 witness: for the concrete one-letter token x, the doubled header
Bearer Bearer x differs from the literal Bearer x yet is accepted. -/
theorem verify_token_replace_characterization_witness :
    verify_token (Config.mk none "fid".data 60 (some "x".data))
      (some ("Bearer Bearer ".data ++ "x".data)) = .ok () ∧
    "Bearer Bearer ".data ++ "x".data ≠ "Bearer ".data ++ "x".data := by
  have h := verify_token_replace_characterization
    (Config.mk none "fid".data 60 (some "x".data)) "x".data rfl (by decide)
  exact ⟨(h.2.1 (by decide)).2, (h.2.1 (by decide)).1⟩

/-- C10: when the token check passes and the upstream key is configured
but base64 decoding of the audio field raises, the endpoint answers 500
carrying exactly the decoder message (the blanket except clause turns
the raised error into a 500 with `str(e)`), performs no upstream call,
and returns no frame data. -/
theorem process_audio_decode_failure (cfg : Config)
    (b64decode : PyStr → Except PyStr PyBytes)
    (stub : A2FRequest → List (PyStr × PyStr) → Except RpcError A2FResponse)
    (request : AudioRequest) (authorization : Option PyStr) (msg : PyStr)
    (hauth : verify_token cfg authorization = .ok ())
    (hkey : truthy cfg.NVIDIA_API_KEY = true)
    (hdec : b64decode request.audio = .error msg) :
    process_audio cfg b64decode stub request authorization
      = ⟨.error ⟨500, msg⟩, [], none⟩ := by
  rw [process_audio, hauth]
  simp [hkey, hdec, handle_request_exceptions]

/-- C10 witness: a concrete request whose audio decoding raises. -/
theorem process_audio_decode_failure_witness :
    process_audio (Config.mk (some "k".data) "fid".data 60 none)
      (fun _ => .error "Invalid base64-encoded string".data)
      (fun _ _ => .ok ⟨[]⟩) { audio := "!!".data } none
      = ⟨.error ⟨500, "Invalid base64-encoded string".data⟩, [], none⟩ :=
  process_audio_decode_failure (Config.mk (some "k".data) "fid".data 60 none)
    (fun _ => .error "Invalid base64-encoded string".data)
    (fun _ _ => .ok ⟨[]⟩) { audio := "!!".data } none
    "Invalid base64-encoded string".data rfl rfl rfl

/-- C6: when the single upstream call fails with an RPC error, the
endpoint performs exactly that one call (no retry), answers with status
500 whose detail is the fixed error prefix followed by the upstream
detail, and the result is an error response: no success and no frame
data. -/
theorem process_audio_upstream_error_no_retry (cfg : Config)
    (b64decode : PyStr → Except PyStr PyBytes)
    (stub : A2FRequest → List (PyStr × PyStr) → Except RpcError A2FResponse)
    (request : AudioRequest) (authorization : Option PyStr)
    (audio_bytes : PyBytes) (e : RpcError)
    (hauth : verify_token cfg authorization = .ok ())
    (hkey : truthy cfg.NVIDIA_API_KEY = true)
    (hdec : b64decode request.audio = .ok audio_bytes)
    (hstub : stub ⟨convert_to_pcm16 audio_bytes request.format, cfg.A2F_OUTPUT_FPS⟩
      (create_grpc_metadata cfg) = .error e) :
    process_audio cfg b64decode stub request authorization
      = ⟨.error ⟨500, "NVIDIA A2F-3D Error: ".data ++ e.details⟩,
         [(⟨convert_to_pcm16 audio_bytes request.format, cfg.A2F_OUTPUT_FPS⟩,
           create_grpc_metadata cfg)],
         some (pyOrStr request.function_id cfg.A2F_FUNCTION_ID)⟩ := by
  rw [process_audio, hauth]
  simp [hkey, hdec, hstub, handle_request_exceptions]

/-- C6 witness: a concrete upstream RPC failure. -/
theorem process_audio_upstream_error_no_retry_witness :
    process_audio (Config.mk (some "k".data) "fid".data 60 none)
      (fun _ => .ok [1, 2])
      (fun _ _ => .error ⟨"UNAVAILABLE".data, "upstream down".data⟩)
      { audio := "AAA=".data } none
      = ⟨.error ⟨500, "NVIDIA A2F-3D Error: ".data ++ "upstream down".data⟩,
         [(⟨convert_to_pcm16 [1, 2] "webm".data, 60⟩,
           create_grpc_metadata (Config.mk (some "k".data) "fid".data 60 none))],
         some (pyOrStr none "fid".data)⟩ :=
  process_audio_upstream_error_no_retry
    (Config.mk (some "k".data) "fid".data 60 none)
    (fun _ => .ok [1, 2])
    (fun _ _ => .error ⟨"UNAVAILABLE".data, "upstream down".data⟩)
    { audio := "AAA=".data } none [1, 2]
    ⟨"UNAVAILABLE".data, "upstream down".data⟩ rfl rfl rfl rfl

/-- C5: every successful response has success true, carries the
translated frames and the configured fps, and its duration is the frame
count over the fps when frames are present; when the upstream response
carries no blendshape data the frames sequence is empty and the
duration is 0, with success still true. -/
theorem process_audio_duration_invariant (cfg : Config)
    (b64decode : PyStr → Except PyStr PyBytes)
    (stub : A2FRequest → List (PyStr × PyStr) → Except RpcError A2FResponse)
    (request : AudioRequest) (authorization : Option PyStr)
    (audio_bytes : PyBytes) (r : A2FResponse)
    (hauth : verify_token cfg authorization = .ok ())
    (hkey : truthy cfg.NVIDIA_API_KEY = true)
    (hfps : 0 < cfg.A2F_OUTPUT_FPS)
    (hdec : b64decode request.audio = .ok audio_bytes)
    (hstub : stub ⟨convert_to_pcm16 audio_bytes request.format, cfg.A2F_OUTPUT_FPS⟩
      (create_grpc_metadata cfg) = .ok r) :
    ∃ resp : AudioResponse,
      (process_audio cfg b64decode stub request authorization).result = .ok resp ∧
      resp.success = true ∧
      resp.frames = some (parse_a2f_response cfg r) ∧
      resp.fps = some cfg.A2F_OUTPUT_FPS ∧
      (parse_a2f_response cfg r ≠ [] →
        resp.duration = some (((parse_a2f_response cfg r).length : ℚ)
          / (cfg.A2F_OUTPUT_FPS : ℚ))) ∧
      (r.blendshapes = [] →
        resp.frames = some [] ∧ resp.duration = some 0) := by
  refine ⟨AudioResponse.mk true (some (parse_a2f_response cfg r))
    (some cfg.A2F_OUTPUT_FPS)
    (some (if (parse_a2f_response cfg r).isEmpty = false then
      ((parse_a2f_response cfg r).length : ℚ) / (cfg.A2F_OUTPUT_FPS : ℚ) else 0))
    none, ?_, rfl, rfl, rfl, ?_, ?_⟩
  · rw [process_audio, hauth]
    simp [hkey, hdec, hstub]
  · intro hne
    simp [List.isEmpty_iff, hne]
  · intro hempty
    have hpe : parse_a2f_response cfg r = [] := by
      simp [parse_a2f_response, hempty]
    simp [hpe]

/-- C5 witness: a concrete successful run over three upstream frames at
60 fps. -/
theorem process_audio_duration_invariant_witness :
    ∃ resp : AudioResponse,
      (process_audio (Config.mk (some "k".data) "fid".data 60 none)
        (fun _ => .ok [7])
        (fun _ _ => .ok ⟨[⟨[(1 : ℚ)/10]⟩, ⟨[(2 : ℚ)/10]⟩, ⟨[(0 : ℚ)]⟩]⟩)
        { audio := "AAA=".data } none).result = .ok resp ∧
      resp.success = true ∧
      resp.frames = some (parse_a2f_response
        (Config.mk (some "k".data) "fid".data 60 none)
        ⟨[⟨[(1 : ℚ)/10]⟩, ⟨[(2 : ℚ)/10]⟩, ⟨[(0 : ℚ)]⟩]⟩) ∧
      resp.fps = some 60 ∧
      (parse_a2f_response (Config.mk (some "k".data) "fid".data 60 none)
          ⟨[⟨[(1 : ℚ)/10]⟩, ⟨[(2 : ℚ)/10]⟩, ⟨[(0 : ℚ)]⟩]⟩ ≠ [] →
        resp.duration = some (((parse_a2f_response
          (Config.mk (some "k".data) "fid".data 60 none)
          ⟨[⟨[(1 : ℚ)/10]⟩, ⟨[(2 : ℚ)/10]⟩, ⟨[(0 : ℚ)]⟩]⟩).length : ℚ) / (60 : ℚ))) ∧
      (([⟨[(1 : ℚ)/10]⟩, ⟨[(2 : ℚ)/10]⟩, ⟨[(0 : ℚ)]⟩] : List FrameData) = [] →
        resp.frames = some [] ∧ resp.duration = some 0) :=
  process_audio_duration_invariant
    (Config.mk (some "k".data) "fid".data 60 none)
    (fun _ => .ok [7])
    (fun _ _ => .ok ⟨[⟨[(1 : ℚ)/10]⟩, ⟨[(2 : ℚ)/10]⟩, ⟨[(0 : ℚ)]⟩]⟩)
    { audio := "AAA=".data } none [7]
    ⟨[⟨[(1 : ℚ)/10]⟩, ⟨[(2 : ℚ)/10]⟩, ⟨[(0 : ℚ)]⟩]⟩
    rfl rfl (by decide) rfl rfl

/-- C4: given N upstream flat-sequence records each of W values, the
translator yields N frames in order; frame i has timestamp i over the
output fps and its mapping has exactly W entries, entry j binding the
synthesized name blendshape_j to value j of record i (the float coercion
of the source is the identity on this rational model). -/
theorem parse_a2f_response_flat_frames (cfg : Config) (r : A2FResponse) (W : Nat)
    (hfps : 0 < cfg.A2F_OUTPUT_FPS)
    (hW : ∀ fd ∈ r.blendshapes, fd.values.length = W) :
    (parse_a2f_response cfg r).length = r.blendshapes.length ∧
    ∀ i : Nat, ∀ fd : FrameData, r.blendshapes[i]? = some fd →
      ∃ frame : BlendshapeFrame,
        (parse_a2f_response cfg r)[i]? = some frame ∧
        frame.timestamp = (i : ℚ) / (cfg.A2F_OUTPUT_FPS : ℚ) ∧
        frame.blendshapes.length = W ∧
        ∀ j : Nat, frame.blendshapes[j]? =
          (fd.values[j]?).map fun v => (("blendshape_" ++ toString j).data, v) := by
  constructor
  · simp [parse_a2f_response]
  · intro i fd hi
    refine ⟨⟨(i : ℚ) / (cfg.A2F_OUTPUT_FPS : ℚ),
      fd.values.enum.map fun q => (("blendshape_" ++ toString q.1).data, q.2)⟩,
      ?_, rfl, ?_, ?_⟩
    · simp [parse_a2f_response, List.getElem?_map, List.getElem?_enum, hi]
    · simpa using hW fd (List.getElem?_mem hi)
    · intro j
      simp [List.getElem?_map, List.getElem?_enum]
      cases h : fd.values[j]? <;> simp

/-- C4 witness: one upstream record of width 2 at 60 fps. -/
theorem parse_a2f_response_flat_frames_witness :
    (parse_a2f_response (Config.mk (some "k".data) "fid".data 60 none)
      ⟨[⟨[(1 : ℚ)/10, (2 : ℚ)/10]⟩]⟩).length
      = ([⟨[(1 : ℚ)/10, (2 : ℚ)/10]⟩] : List FrameData).length ∧
    ∀ i : Nat, ∀ fd : FrameData,
      ([⟨[(1 : ℚ)/10, (2 : ℚ)/10]⟩] : List FrameData)[i]? = some fd →
      ∃ frame : BlendshapeFrame,
        (parse_a2f_response (Config.mk (some "k".data) "fid".data 60 none)
          ⟨[⟨[(1 : ℚ)/10, (2 : ℚ)/10]⟩]⟩)[i]? = some frame ∧
        frame.timestamp = (i : ℚ) / (60 : ℚ) ∧
        frame.blendshapes.length = 2 ∧
        ∀ j : Nat, frame.blendshapes[j]? =
          (fd.values[j]?).map fun v => (("blendshape_" ++ toString j).data, v) :=
  parse_a2f_response_flat_frames (Config.mk (some "k".data) "fid".data 60 none)
    ⟨[⟨[(1 : ℚ)/10, (2 : ℚ)/10]⟩]⟩ 2 (by decide) (by decide)

/-- C3: given N raw mapping-shaped records, the spec-modelled translator
yields N frames in order, frame i holding timestamp i over the output
fps and exactly the name-value pairs of record i (values coerced to
float, the identity on this rational model). -/
theorem parse_mapping_frames_roundtrip (output_fps : Nat)
    (hfps : 0 < output_fps) (raw : List (List (PyStr × ℚ))) :
    (parse_mapping_frames output_fps raw).length = raw.length ∧
    ∀ i : Nat, ∀ rec : List (PyStr × ℚ), raw[i]? = some rec →
      (parse_mapping_frames output_fps raw)[i]? =
        some ⟨(i : ℚ) / (output_fps : ℚ), rec⟩ := by
  constructor
  · simp [parse_mapping_frames]
  · intro i rec hi
    simp [parse_mapping_frames, List.getElem?_map, List.getElem?_enum, hi]

/-- C3 witness: one mapping record at 60 fps, name and value unchanged. -/
theorem parse_mapping_frames_roundtrip_witness :
    (parse_mapping_frames 60 [[("jawOpen".data, (1 : ℚ)/10)]]).length
      = ([[("jawOpen".data, (1 : ℚ)/10)]] : List (List (PyStr × ℚ))).length ∧
    ∀ i : Nat, ∀ rec : List (PyStr × ℚ),
      ([[("jawOpen".data, (1 : ℚ)/10)]] : List (List (PyStr × ℚ)))[i]? = some rec →
      (parse_mapping_frames 60 [[("jawOpen".data, (1 : ℚ)/10)]])[i]? =
        some ⟨(i : ℚ) / (60 : ℚ), rec⟩ :=
  parse_mapping_frames_roundtrip 60 (by decide) [[("jawOpen".data, (1 : ℚ)/10)]]

end A2FBridge
